import Mathlib

/-!
Verification of the `FloatingSearch` widget
(`src/src/components/FloatingSearch.tsx`).

The component owns five pieces of state (`isExpanded`, `searchQuery`,
`searchScope`, `showScopeMenu`, `isLoading`) and mutates them only inside
its event handlers.  We embed the state as a structure and each handler as
a pure transition function; the asynchronous submit path (which awaits the
injected `onSearch` operation inside a `try … finally`) is embedded as a
function parameterised by the outcome of the injected operation.
-/

namespace FloatingSearch

/-- The scope enumeration: `useState<'all' | 'domain' | 'page'>('page')`. -/
inductive Scope where
  | all
  | domain
  | page
deriving DecidableEq, Repr

/-- The literal string value each scope variant holds in the source. -/
def Scope.name : Scope → String
  | .all => "all"
  | .domain => "domain"
  | .page => "page"

/-- `searchScope.toUpperCase()` (line 48): JavaScript `toUpperCase` applied
to each of the three possible values of `searchScope`. -/
def Scope.upperName : Scope → String
  | .all => "ALL"
  | .domain => "DOMAIN"
  | .page => "PAGE"

/-- Whitespace for JavaScript `String.prototype.trim`: the WhiteSpace and
LineTerminator code points (tab, LF, VT, FF, CR, space, NBSP, LS, PS,
ZWNBSP; the remaining Unicode space separators are omitted as they play no
role here). -/
def jsWhitespace (c : Char) : Bool :=
  c = ' ' || c = '\t' || c = '\n' || c = '\u000B' || c = '\u000C' ||
  c = '\r' || c = '\u00A0' || c = '\u2028' || c = '\u2029' || c = '\uFEFF'

/-- JavaScript `searchQuery.trim()` (line 42): the string with leading and
trailing whitespace removed. -/
def jsTrim (q : String) : String :=
  ⟨((q.data.dropWhile jsWhitespace).reverse.dropWhile jsWhitespace).reverse⟩

/-- The component state: the five `useState` hooks of `FloatingSearch`. -/
structure SearchState where
  isExpanded : Bool
  searchQuery : String
  searchScope : Scope
  showScopeMenu : Bool
  isLoading : Bool
deriving DecidableEq, Repr

/-- Initial state on mount:
`useState(false)`, `useState('')`, `useState('page')`, `useState(false)`,
`useState(false)`. -/
def initState : SearchState :=
  { isExpanded := false
    searchQuery := ""
    searchScope := Scope.page
    showScopeMenu := false
    isLoading := false }

/-- The composed query of `handleSubmit`, line 48:
`const query = ` followed by the template
`[${searchScope.toUpperCase()}] ${searchQuery}` — the bracketed upper-cased
scope tag, a space, then the raw (untrimmed) query. -/
def composedQuery (s : SearchState) : String :=
  "[" ++ s.searchScope.upperName ++ "] " ++ s.searchQuery

/-- The synchronous head of `handleSubmit` (lines 40-48): the guard
`if (!searchQuery.trim() || isLoading) return;`, then `setIsLoading(true)`,
`setShowScopeMenu(false)` and the composition of the effective query.
Returns the state after acceptance together with the argument passed to the
injected `onSearch` operation (`none` when the submission is rejected). -/
def handleSubmitAccept (s : SearchState) : SearchState × Option String :=
  if jsTrim s.searchQuery = "" || s.isLoading then (s, none)
  else ({ s with isLoading := true, showScopeMenu := false },
        some (composedQuery s))

/-- The `finally` block of `handleSubmit` (lines 52-56): runs after the
injected operation settles, regardless of success or failure:
`setIsLoading(false)`, `setSearchQuery('')`, `setIsExpanded(false)`. -/
def submitCleanup (s : SearchState) : SearchState :=
  { s with isLoading := false, searchQuery := "", isExpanded := false }

/-- The whole `handleSubmit` async function, embedded with the settlement of
the injected `onSearch` call as a parameter: `outcome q` is how the awaited
`onSearch q` settles (`Except.ok ()` for resolution, `Except.error e` for
rejection).  Returns the final state, the list of calls actually made to
`onSearch`, and the value the async function itself settles with.  The
source wraps the `await` in `try { … } finally { cleanup }` with no `catch`,
so the cleanup is applied on every path after a call, and the injected
operation's outcome is propagated unchanged. -/
def handleSubmitAsync {E : Type} (s : SearchState)
    (outcome : String → Except E Unit) :
    SearchState × List String × Except E Unit :=
  match handleSubmitAccept s with
  | (s1, none) => (s1, [], Except.ok ())
  | (s1, some q) => (submitCleanup s1, [q], outcome q)

/-- The user-facing and environmental events of the widget.  `submitAccept`
is the synchronous head of a form submission; `submitComplete` is the
`finally` continuation that runs when the in-flight injected operation
settles. -/
inductive Event where
  | toggleExpand
  | toggleScopeMenu
  | selectScope (sc : Scope)
  | setQuery (q : String)
  | submitAccept
  | submitComplete
  | clickOutside
deriving DecidableEq, Repr

/-- One transition of the widget, handler by handler:

* `toggleExpand` — expand/search button `onClick` (lines 90-95):
  `if (!isLoading) { setIsExpanded(!isExpanded); setShowScopeMenu(false) }`.
* `toggleScopeMenu` — scope button `onClick` (line 120):
  `!isLoading && setShowScopeMenu(!showScopeMenu)`.  Note the handler does
  not test `isExpanded`, and the button is rendered and enabled
  (`disabled={isLoading}` only) whether or not the widget is expanded; it is
  merely hidden by styling when collapsed.
* `selectScope sc` — a scope-option `onClick` (lines 162-165):
  `setSearchScope(scope); setShowScopeMenu(false)`.  The option buttons
  exist in the DOM only under the structural render condition
  `showScopeMenu && !isLoading` (line 152), so the event is a no-op
  otherwise.
* `setQuery q` — input `onChange` (line 134); the input carries
  `disabled={isLoading}`.
* `submitAccept` — the synchronous head of `handleSubmit`.
* `submitComplete` — the `finally` block; it only ever runs while the
  accepted submission is in flight (`isLoading = true`), and is a no-op
  otherwise to make the transition total.
* `clickOutside` — `handleClickOutside` (lines 19-28) for a pointer-down
  whose target is outside `searchContainerRef`: guarded by `!isLoading`,
  then `setIsExpanded(false); setShowScopeMenu(false)`. -/
def step (s : SearchState) : Event → SearchState
  | .toggleExpand =>
      if s.isLoading then s
      else { s with isExpanded := !s.isExpanded, showScopeMenu := false }
  | .toggleScopeMenu =>
      if s.isLoading then s
      else { s with showScopeMenu := !s.showScopeMenu }
  | .selectScope sc =>
      if s.showScopeMenu && !s.isLoading then
        { s with searchScope := sc, showScopeMenu := false }
      else s
  | .setQuery q =>
      if s.isLoading then s else { s with searchQuery := q }
  | .submitAccept => (handleSubmitAccept s).1
  | .submitComplete =>
      if s.isLoading then submitCleanup s else s
  | .clickOutside =>
      if s.isLoading then s
      else { s with isExpanded := false, showScopeMenu := false }

/-- The state after running a sequence of events from the initial state. -/
def run (l : List Event) : SearchState :=
  l.foldl step initState

/-- Whether an event's UI control is actually interactable in a state:
the scope-menu toggle button is hidden inside the collapsed widget (only
reachable while expanded), and the `finally` continuation of a submission
only runs while that submission is in flight.  All other events are always
issuable (their `step` cases already carry the structural guards). -/
def uiIssuable (s : SearchState) : Event → Bool
  | .toggleScopeMenu => s.isExpanded
  | .submitComplete => s.isLoading
  | _ => true

/-- States reachable from the initial state through events whose UI
controls are interactable when they fire. -/
inductive ReachableUI : SearchState → Prop where
  | init : ReachableUI initState
  | next (s : SearchState) (e : Event) (hs : ReachableUI s)
      (he : uiIssuable s e = true) : ReachableUI (step s e)

end FloatingSearch

namespace FloatingSearch

/-- Any property preserved by every single transition holds after folding a
whole event sequence. -/
theorem foldl_step_preserves (P : SearchState → Prop)
    (hstep : ∀ s e, P s → P (step s e)) :
    ∀ (l : List Event) (s : SearchState), P s → P (l.foldl step s) := by
  intro l
  induction l with
  | nil => intro s hs; exact hs
  | cons e t ih => intro s hs; exact ih _ (hstep s e hs)

/-- Every single transition preserves the exclusion between the loading
flag and an open scope menu. -/
theorem step_menu_loading_exclusion (s : SearchState) (e : Event)
    (h : s.isLoading = true → s.showScopeMenu = false) :
    (step s e).isLoading = true → (step s e).showScopeMenu = false := by
  cases e with
  | toggleExpand =>
      simp only [step]
      split_ifs with hL
      · exact h
      · exact fun _ => rfl
  | toggleScopeMenu =>
      simp only [step]
      split_ifs with hL
      · exact h
      · exact fun hl => absurd hl hL
  | selectScope sc =>
      simp only [step]
      split_ifs with hL
      · exact fun _ => rfl
      · exact h
  | setQuery q =>
      simp only [step]
      split_ifs with hL
      · exact h
      · exact fun hl => absurd hl hL
  | submitAccept =>
      simp only [step, handleSubmitAccept]
      split_ifs with hL
      · exact h
      · exact fun _ => rfl
  | submitComplete =>
      simp only [step]
      split_ifs with hL
      · intro hl; simp [submitCleanup] at hl
      · exact h
  | clickOutside =>
      simp only [step]
      split_ifs with hL
      · exact h
      · exact fun _ => rfl

/-- Along UI-issuable traces, both state invariants hold: loading excludes
an open menu, and a collapsed widget excludes an open menu. -/
theorem reachableUI_menu_invariants (s : SearchState) (h : ReachableUI s) :
    (s.isLoading = true → s.showScopeMenu = false) ∧
    (s.isExpanded = false → s.showScopeMenu = false) := by
  induction h with
  | init => exact ⟨fun hl => by simp [initState] at hl, fun _ => rfl⟩
  | next s e hs he ih =>
      cases e with
      | toggleExpand =>
          simp only [step]
          split_ifs with hL
          · exact ih
          · exact ⟨fun _ => rfl, fun _ => rfl⟩
      | toggleScopeMenu =>
          simp only [uiIssuable] at he
          simp only [step]
          split_ifs with hL
          · exact ih
          · refine ⟨fun hl => absurd hl hL, fun hx => ?_⟩
            rw [show ({ s with showScopeMenu := !s.showScopeMenu } :
              SearchState).isExpanded = s.isExpanded from rfl, he] at hx
            cases hx
      | selectScope sc =>
          simp only [step]
          split_ifs with hL
          · exact ⟨fun _ => rfl, fun _ => rfl⟩
          · exact ih
      | setQuery q =>
          simp only [step]
          split_ifs with hL
          · exact ih
          · exact ⟨fun hl => absurd hl hL, fun hx => ih.2 hx⟩
      | submitAccept =>
          simp only [step, handleSubmitAccept]
          split_ifs with hL
          · exact ih
          · exact ⟨fun _ => rfl, fun _ => rfl⟩
      | submitComplete =>
          simp only [uiIssuable] at he
          simp only [step]
          rw [if_pos he]
          exact ⟨fun hl => by simp [submitCleanup] at hl, fun _ => ih.1 he⟩
      | clickOutside =>
          simp only [step]
          split_ifs with hL
          · exact ih
          · exact ⟨fun _ => rfl, fun _ => rfl⟩

end FloatingSearch

namespace FloatingSearch

/-- C1: an accepted submission (trimmed query non-empty, not loading) sets
the loading flag, closes the scope menu, invokes the injected operation
exactly once with the string formed by prefixing the raw (untrimmed) query
with the upper-cased bracketed scope tag, and once the operation resolves
the state is collapsed with an empty query. -/
theorem c1_submit_happy_path {E : Type} (s : SearchState)
    (outcome : String → Except E Unit)
    (hq : jsTrim s.searchQuery ≠ "") (hl : s.isLoading = false) :
    (handleSubmitAccept s).1.isLoading = true ∧
    (handleSubmitAccept s).1.showScopeMenu = false ∧
    (handleSubmitAsync s outcome).2.1
      = ["[" ++ s.searchScope.upperName ++ "] " ++ s.searchQuery] ∧
    (handleSubmitAsync s outcome).1.isExpanded = false ∧
    (handleSubmitAsync s outcome).1.searchQuery = "" := by
  simp [handleSubmitAccept, handleSubmitAsync, composedQuery, submitCleanup,
    hq, hl]

/-- C1 witness: scope PAGE and raw query "weather today" produce exactly the
call "[PAGE] weather today" and a collapsed, cleared final state. -/
theorem c1_submit_happy_path_witness :
    jsTrim "weather today" ≠ "" ∧
    (handleSubmitAccept
      { isExpanded := true, searchQuery := "weather today",
        searchScope := Scope.page, showScopeMenu := false,
        isLoading := false }).1.isLoading = true ∧
    (handleSubmitAsync (E := Unit)
      { isExpanded := true, searchQuery := "weather today",
        searchScope := Scope.page, showScopeMenu := false,
        isLoading := false } (fun _ => Except.ok ())).2.1
      = ["[PAGE] weather today"] ∧
    (handleSubmitAsync (E := Unit)
      { isExpanded := true, searchQuery := "weather today",
        searchScope := Scope.page, showScopeMenu := false,
        isLoading := false } (fun _ => Except.ok ())).1.searchQuery = "" := by
  have h := c1_submit_happy_path (E := Unit)
    { isExpanded := true, searchQuery := "weather today",
      searchScope := Scope.page, showScopeMenu := false, isLoading := false }
    (fun _ => Except.ok ()) (by decide) rfl
  exact ⟨by decide, h.1, h.2.2.1, h.2.2.2.2⟩

/-- C2: when the injected operation rejects, the cleanup still runs
(loading false, query empty, collapsed) and the rejection is propagated
unchanged to the caller of the submit path. -/
theorem c2_failure_propagation {E : Type} (s : SearchState) (e : E)
    (hq : jsTrim s.searchQuery ≠ "") (hl : s.isLoading = false) :
    (handleSubmitAsync s (fun _ => Except.error e)).1.isLoading = false ∧
    (handleSubmitAsync s (fun _ => Except.error e)).1.searchQuery = "" ∧
    (handleSubmitAsync s (fun _ => Except.error e)).1.isExpanded = false ∧
    (handleSubmitAsync s (fun _ => Except.error e)).2.2
      = Except.error e := by
  simp [handleSubmitAsync, handleSubmitAccept, submitCleanup, hq, hl]

/-- C2 witness: a concrete rejecting submission still cleans up and the
error "boom" comes back out. -/
theorem c2_failure_propagation_witness :
    jsTrim "abc" ≠ "" ∧
    (handleSubmitAsync
      { isExpanded := true, searchQuery := "abc", searchScope := Scope.all,
        showScopeMenu := true, isLoading := false }
      (fun _ => Except.error "boom")).1.isLoading = false ∧
    (handleSubmitAsync
      { isExpanded := true, searchQuery := "abc", searchScope := Scope.all,
        showScopeMenu := true, isLoading := false }
      (fun _ => Except.error "boom")).2.2 = Except.error "boom" := by
  have h := c2_failure_propagation
    { isExpanded := true, searchQuery := "abc", searchScope := Scope.all,
      showScopeMenu := true, isLoading := false } "boom" (by decide) rfl
  exact ⟨by decide, h.1, h.2.2.2⟩

/-- C3: along every event sequence from the initial state, whenever the
loading flag is set the scope menu is closed. -/
theorem c3_loading_excludes_menu (l : List Event)
    (h : (run l).isLoading = true) : (run l).showScopeMenu = false := by
  have hinv := foldl_step_preserves
    (fun s => s.isLoading = true → s.showScopeMenu = false)
    step_menu_loading_exclusion l initState
    (fun hl => by simp [initState] at hl)
  exact hinv h

/-- C3 witness: a concrete trace that reaches a loading state has the menu
closed there. -/
theorem c3_loading_excludes_menu_witness :
    (run [Event.toggleExpand, Event.setQuery "hi",
      Event.submitAccept]).isLoading = true ∧
    (run [Event.toggleExpand, Event.setQuery "hi",
      Event.submitAccept]).showScopeMenu = false :=
  ⟨by decide, c3_loading_excludes_menu
    [Event.toggleExpand, Event.setQuery "hi", Event.submitAccept]
    (by decide)⟩

/-- C4: submitting with a query that trims to empty is a silent no-op: the
whole state is unchanged and the injected operation is never invoked. -/
theorem c4_empty_query_noop {E : Type} (s : SearchState)
    (outcome : String → Except E Unit) (hq : jsTrim s.searchQuery = "") :
    handleSubmitAsync s outcome = (s, [], Except.ok ()) := by
  simp [handleSubmitAsync, handleSubmitAccept, hq]

/-- C4 witness: a whitespace-only query "   " is rejected without any state
change or call. -/
theorem c4_empty_query_noop_witness :
    jsTrim "   " = "" ∧
    handleSubmitAsync (E := Unit)
      { isExpanded := true, searchQuery := "   ", searchScope := Scope.page,
        showScopeMenu := false, isLoading := false } (fun _ => Except.ok ())
      = ({ isExpanded := true, searchQuery := "   ",
           searchScope := Scope.page, showScopeMenu := false,
           isLoading := false }, [], Except.ok ()) :=
  ⟨by decide, c4_empty_query_noop (E := Unit)
    { isExpanded := true, searchQuery := "   ", searchScope := Scope.page,
      showScopeMenu := false, isLoading := false }
    (fun _ => Except.ok ()) (by decide)⟩

/-- C5: with a first submission accepted and in flight, a second submit
attempt is rejected, so the two attempts together produce exactly one
invocation of the injected operation. -/
theorem c5_double_submit_guard (s : SearchState)
    (hq : jsTrim s.searchQuery ≠ "") (hl : s.isLoading = false) :
    (handleSubmitAccept s).2 = some (composedQuery s) ∧
    handleSubmitAccept (handleSubmitAccept s).1
      = ((handleSubmitAccept s).1, none) ∧
    ((handleSubmitAccept s).2.toList
      ++ (handleSubmitAccept (handleSubmitAccept s).1).2.toList).length
      = 1 := by
  simp [handleSubmitAccept, hq, hl]

/-- C5 witness: two back-to-back submits on query "hi" make exactly one
call. -/
theorem c5_double_submit_guard_witness :
    jsTrim "hi" ≠ "" ∧
    ((handleSubmitAccept
      { isExpanded := true, searchQuery := "hi", searchScope := Scope.page,
        showScopeMenu := false, isLoading := false }).2.toList
      ++ (handleSubmitAccept (handleSubmitAccept
          { isExpanded := true, searchQuery := "hi",
            searchScope := Scope.page, showScopeMenu := false,
            isLoading := false }).1).2.toList).length = 1 :=
  ⟨by decide, (c5_double_submit_guard
    { isExpanded := true, searchQuery := "hi", searchScope := Scope.page,
      showScopeMenu := false, isLoading := false }
    (by decide) rfl).2.2⟩

/-- C6: an outside pointer-down while not loading collapses the widget and
closes the scope menu, leaving the query and the scope untouched. -/
theorem c6_outside_dismissal (s : SearchState) (hl : s.isLoading = false) :
    (step s Event.clickOutside).isExpanded = false ∧
    (step s Event.clickOutside).showScopeMenu = false ∧
    (step s Event.clickOutside).searchQuery = s.searchQuery ∧
    (step s Event.clickOutside).searchScope = s.searchScope := by
  simp [step, hl]

/-- A concrete expanded state, parameterised for the witnesses below. -/
def exState (q : String) (sc : Scope) (menu load : Bool) : SearchState :=
  { isExpanded := true, searchQuery := q, searchScope := sc,
    showScopeMenu := menu, isLoading := load }

/-- C6 witness: from expanded with query "abc", an outside pointer-down
collapses the widget but "abc" persists. -/
theorem c6_outside_dismissal_witness :
    (step (exState "abc" Scope.page false false)
      Event.clickOutside).isExpanded = false ∧
    (step (exState "abc" Scope.page false false)
      Event.clickOutside).searchQuery = "abc" := by
  have h := c6_outside_dismissal (exState "abc" Scope.page false false) rfl
  exact ⟨h.1, h.2.2.1⟩

/-- C7: while a submission is in flight, an outside pointer-down changes
nothing at all: the state (in particular `isExpanded` and `isLoading`) is
exactly preserved. -/
theorem c7_dismissal_suppressed_while_loading (s : SearchState)
    (hl : s.isLoading = true) : step s Event.clickOutside = s := by
  simp [step, hl]

/-- C7 witness: a concrete submitting state absorbs an outside
pointer-down unchanged. -/
theorem c7_dismissal_suppressed_while_loading_witness :
    step (exState "abc" Scope.page false true) Event.clickOutside
      = exState "abc" Scope.page false true :=
  c7_dismissal_suppressed_while_loading
    (exState "abc" Scope.page false true) rfl

/-- C8: while loading, the expand toggle, the scope-menu toggle and scope
selection are all silent no-ops on the entire state. -/
theorem c8_loading_blocks_interactions (s : SearchState)
    (hl : s.isLoading = true) :
    step s Event.toggleExpand = s ∧
    step s Event.toggleScopeMenu = s ∧
    ∀ sc : Scope, step s (Event.selectScope sc) = s := by
  refine ⟨by simp [step, hl], by simp [step, hl], fun sc => by simp [step, hl]⟩

/-- C8 witness: in a concrete loading state each of the three interactions
leaves the state unchanged (scope selection shown for scope ALL). -/
theorem c8_loading_blocks_interactions_witness :
    step (exState "q" Scope.page false true) Event.toggleExpand
      = exState "q" Scope.page false true ∧
    step (exState "q" Scope.page false true) Event.toggleScopeMenu
      = exState "q" Scope.page false true ∧
    step (exState "q" Scope.page false true) (Event.selectScope Scope.all)
      = exState "q" Scope.page false true := by
  have h := c8_loading_blocks_interactions
    (exState "q" Scope.page false true) rfl
  exact ⟨h.1, h.2.1, h.2.2 Scope.all⟩

/-- C9 counterexample: the claim fails as stated.  The scope-menu toggle
handler is guarded only by `isLoading` (line 120) and its button is
rendered and enabled while the widget is collapsed (it is merely hidden by
styling), so the one-event sequence `toggleScopeMenu` from the initial
state yields a state that is collapsed yet has the scope menu open. -/
theorem c9_collapsed_menu_counterexample :
    (run [Event.toggleScopeMenu]).isExpanded = false ∧
    (run [Event.toggleScopeMenu]).showScopeMenu = true := by decide

/-- C9 amended: for every state reached from the initial state by events
whose UI controls are interactable when they fire — in particular the
scope-menu toggle only fires while the widget is expanded, which is the
only time its button is visible — a collapsed widget always has the scope
menu closed. -/
theorem c9_collapsed_menu_closed_ui (s : SearchState) (h : ReachableUI s)
    (hx : s.isExpanded = false) : s.showScopeMenu = false :=
  (reachableUI_menu_invariants s h).2 hx

/-- C9 amended witness: expand, open the menu, then collapse via the
expand toggle; the resulting collapsed state has the menu closed. -/
theorem c9_collapsed_menu_closed_ui_witness :
    (step (step (step initState Event.toggleExpand) Event.toggleScopeMenu)
      Event.toggleExpand).showScopeMenu = false :=
  c9_collapsed_menu_closed_ui
    (step (step (step initState Event.toggleExpand) Event.toggleScopeMenu)
      Event.toggleExpand)
    (ReachableUI.next _ _
      (ReachableUI.next _ _
        (ReachableUI.next _ _ ReachableUI.init (by decide)) (by decide))
      (by decide))
    (by decide)

/-- C10: the completion cleanup of an accepted submission resets query,
loading and expansion but leaves the scope exactly as it was when the
submission was accepted. -/
theorem c10_scope_survives_submission {E : Type} (s : SearchState)
    (outcome : String → Except E Unit)
    (hq : jsTrim s.searchQuery ≠ "") (hl : s.isLoading = false) :
    (handleSubmitAsync s outcome).1.searchScope = s.searchScope ∧
    (handleSubmitAsync s outcome).1.searchQuery = "" ∧
    (handleSubmitAsync s outcome).1.isLoading = false ∧
    (handleSubmitAsync s outcome).1.isExpanded = false := by
  simp [handleSubmitAsync, handleSubmitAccept, submitCleanup, hq, hl]

/-- C10 witness: a submission accepted with scope DOMAIN still has scope
DOMAIN after the cleanup, with the rest reset. -/
theorem c10_scope_survives_submission_witness :
    jsTrim "recipe" ≠ "" ∧
    (handleSubmitAsync (E := Unit)
      { isExpanded := true, searchQuery := "recipe",
        searchScope := Scope.domain, showScopeMenu := false,
        isLoading := false } (fun _ => Except.ok ())).1.searchScope
      = Scope.domain ∧
    (handleSubmitAsync (E := Unit)
      { isExpanded := true, searchQuery := "recipe",
        searchScope := Scope.domain, showScopeMenu := false,
        isLoading := false } (fun _ => Except.ok ())).1.searchQuery = "" := by
  have h := c10_scope_survives_submission (E := Unit)
    { isExpanded := true, searchQuery := "recipe",
      searchScope := Scope.domain, showScopeMenu := false,
      isLoading := false } (fun _ => Except.ok ()) (by decide) rfl
  exact ⟨by decide, h.1, h.2.1⟩

end FloatingSearch
